import Mathlib

/-!
Verification of the manual-clustering `Session` orchestrator
(`phy/cluster/manual/session.py`) against its specification.

The `Session` class itself is embedded directly from the source file.
Its collaborators (`Clustering`, `GlobalHistory`, `ClusterMetadata`,
`Selector`) live in modules that are not part of the available sources,
so they are modelled from the specification (each such definition says so
in its doc comment).  `View` models an observer registered with the
session's view manager; the only observable effect the session has on a
view in the embedded code path is invoking its `update()` method, which we
record with a counter.
-/

set_option autoImplicit false

namespace Phy

/-- Errors of the error taxonomy (spec section 7) plus the `ValueError`
raised by `Session.__init__` for a non-`BaseModel` argument. -/
inductive SessionError
  | invalidOperation
  | unknownCluster
  | outOfRange
  | valueError
deriving DecidableEq, Repr

/-- Kind tag of an `Update` diff (spec section 3, extended with the
metadata-change notification kind of spec section 6). -/
inductive UpdateKind
  | load
  | select
  | cluster
  | metadataChange
deriving DecidableEq, Repr

/-- Modelled from the spec: `Update`, the immutable diff describing one
mutation — added cluster ids, removed cluster ids, affected spikes, kind. -/
structure Update where
  added : List Nat
  removed : List Nat
  affected_spikes : List Nat
  kind : UpdateKind
deriving DecidableEq, Repr

/-- Modelled from the spec: the `Update` describing the reversal of the
mutation described by `u` (added and removed swap roles). -/
def Update.inverse (u : Update) : Update :=
  ⟨u.removed, u.added, u.affected_spikes, u.kind⟩

/-- Modelled from the spec: `Clustering` state — the spike→cluster
partition vector (index = spike id) and the monotone next-id allocator
(`clustering.py` is not among the available sources). -/
structure Clustering where
  spike_clusters : List Nat
  nextId : Nat
deriving DecidableEq, Repr

/-- Modelled from the spec: a fresh `Clustering` built from the initial
spike→cluster vector; the allocator starts at `max(existing ids) + 1`. -/
def Clustering.fromSpikeClusters (sc : List Nat) : Clustering :=
  ⟨sc, sc.foldr max 0 + 1⟩

/-- Labels of all live clusters: the image of the partition, in the
deterministic first-occurrence order. -/
def Clustering.cluster_labels (c : Clustering) : List Nat :=
  c.spike_clusters.dedup

/-- Modelled from the spec: `Clustering.merge` — requires at least two
cluster ids, all live; reassigns every spike of those clusters to one
newly allocated id and returns the `Update`. -/
def Clustering.merge (c : Clustering) (clusters : List Nat) :
    Except SessionError (Update × Clustering) :=
  if clusters.length < 2 then .error .invalidOperation
  else if clusters.all (fun x => c.spike_clusters.contains x) then
    let newId := c.nextId
    let affected := (List.range c.spike_clusters.length).filter
      (fun i => clusters.contains (c.spike_clusters.getD i 0))
    let sc := c.spike_clusters.map (fun x => if clusters.contains x then newId else x)
    .ok (⟨[newId], clusters, affected, .cluster⟩, ⟨sc, newId + 1⟩)
  else .error .unknownCluster

/-- Modelled from the spec: `Clustering.split` — requires a non-empty set
of in-range spike ids; moves them all to one newly allocated cluster id;
source clusters emptied by this are removed from the live set. -/
def Clustering.split (c : Clustering) (spikes : List Nat) :
    Except SessionError (Update × Clustering) :=
  if spikes.length = 0 then .error .invalidOperation
  else if spikes.all (fun i => decide (i < c.spike_clusters.length)) then
    let newId := c.nextId
    let oldIds := (spikes.map (fun i => c.spike_clusters.getD i 0)).dedup
    let sc := (List.range c.spike_clusters.length).map
      (fun i => if spikes.contains i then newId else c.spike_clusters.getD i 0)
    let removed := oldIds.filter (fun x => !sc.contains x)
    .ok (⟨[newId], removed, spikes, .cluster⟩, ⟨sc, newId + 1⟩)
  else .error .outOfRange

/-- A metadata property value: a string (e.g. the group name) or a number
(e.g. a palette color index). -/
inductive MValue
  | str (s : String)
  | num (n : Nat)
deriving DecidableEq, Repr

/-- Modelled from the spec: the deterministic palette function giving the
default color of a cluster id (the exact palette is unspecified; only
determinism matters). -/
def paletteColor (c : Nat) : Nat :=
  c % 16

/-- Modelled from the spec: the properties with declared defaults. -/
def knownProperties : List String :=
  ["group", "color"]

/-- Modelled from the spec: the declared default value of a property for a
given cluster id (`group → "unsorted"`, `color → palette(id)`); `none`
for a property without a declared default. -/
def defaultValue (c : Nat) (prop : String) : Option MValue :=
  if prop = "group" then some (.str "unsorted")
  else if prop = "color" then some (.num (paletteColor c))
  else none

/-- Modelled from the spec: `ClusterMetadata` — per-cluster key/value
store (`cluster_metadata.py` is not among the available sources).  Stored
as an association list keyed by (cluster id, property name). -/
structure ClusterMetadata where
  data : List (Nat × String × MValue)
deriving DecidableEq, Repr

/-- Modelled from the spec: `get` returns the stored value or the
property's declared default when unset. -/
def ClusterMetadata.get (md : ClusterMetadata) (c : Nat) (prop : String) :
    Option MValue :=
  match md.data.find? (fun e => e.1 == c && e.2.1 == prop) with
  | some e => some e.2.2
  | none => defaultValue c prop

/-- Overwrite one (cluster, property) entry. -/
def ClusterMetadata.setOne (md : ClusterMetadata) (c : Nat) (prop : String)
    (v : MValue) : ClusterMetadata :=
  ⟨(c, prop, v) :: md.data.filter (fun e => !(e.1 == c && e.2.1 == prop))⟩

/-- Modelled from the spec: `set(clusterIds, property, value)` — unknown
properties fail with `InvalidOperation` before any write; otherwise every
given cluster id's property is overwritten and a metadata-kind `Update`
is produced for notification. -/
def ClusterMetadata.set (md : ClusterMetadata) (clusters : List Nat)
    (prop : String) (v : MValue) :
    Except SessionError (Update × ClusterMetadata) :=
  if knownProperties.contains prop then
    .ok (⟨[], [], [], .metadataChange⟩,
         clusters.foldl (fun m c => m.setOne c prop v) md)
  else .error .invalidOperation

/-- Modelled from the spec: `Selector` state — read access to the
partition vector, the `max_spikes` cap, and the selected cluster ids
(`selector.py` is not among the available sources). -/
structure Selector where
  spike_clusters : List Nat
  n_spikes_max : Nat
  selected_clusters : List Nat
deriving DecidableEq, Repr

/-- Modelled from the spec: setting the selected clusters — unknown ids
fail with `UnknownCluster`. -/
def Selector.setSelectedClusters (sel : Selector) (clusters : List Nat) :
    Except SessionError Selector :=
  if clusters.all (fun c => sel.spike_clusters.contains c) then
    .ok { sel with selected_clusters := clusters }
  else .error .unknownCluster

/-- Modelled from the spec: the derived, order-stable selected-spike
sequence, capped at `n_spikes_max` by a deterministic rule (the exact
sampling policy is an open question in the spec; a prefix cut is used). -/
def Selector.selected_spikes (sel : Selector) : List Nat :=
  ((List.range sel.spike_clusters.length).filter
    (fun i => sel.selected_clusters.contains (sel.spike_clusters.getD i 0))).take
    sel.n_spikes_max

/-- Modelled from the spec: a revertible action — a tagged value
(`ClusteringAction | MetadataAction`) holding the data needed to re-apply
and to undo one mutation; here: before/after snapshots plus the forward
`Update` (`_history.py` is not among the available sources). -/
inductive RevAction
  | clusteringAct (before after : Clustering) (up : Update)
  | metadataAct (before after : ClusterMetadata) (up : Update)
deriving DecidableEq, Repr

/-- The forward `Update` of a revertible action. -/
def RevAction.forwardUpdate : RevAction → Update
  | .clusteringAct _ _ u => u
  | .metadataAct _ _ u => u

/-- Restore the pre-action snapshot into the (clustering, metadata) pair. -/
def RevAction.applyUndo : RevAction → Clustering → ClusterMetadata →
    Clustering × ClusterMetadata
  | .clusteringAct b _ _, _, md => (b, md)
  | .metadataAct b _ _, cl, _ => (cl, b)

/-- Restore the post-action snapshot into the (clustering, metadata) pair. -/
def RevAction.applyRedo : RevAction → Clustering → ClusterMetadata →
    Clustering × ClusterMetadata
  | .clusteringAct _ a _, _, md => (a, md)
  | .metadataAct _ a _, cl, _ => (cl, a)

/-- Result of a history undo/redo request: either the `Update` to notify
with, or the non-fatal `NoMoreHistory` signal. -/
inductive HistoryResult
  | noMoreHistory
  | up (u : Update)
deriving DecidableEq, Repr

/-- Modelled from the spec: `GlobalHistory` — an ordered sequence of
revertible actions plus a cursor; cursor = length means latest state. -/
structure GlobalHistory where
  actions : List RevAction
  cursor : Nat
deriving DecidableEq, Repr

/-- A fresh, empty history. -/
def GlobalHistory.empty : GlobalHistory :=
  ⟨[], 0⟩

/-- Modelled from the spec: `action(a)` — discard the redo tail beyond the
cursor, append `a`, advance the cursor to the new length. -/
def GlobalHistory.action (h : GlobalHistory) (a : RevAction) : GlobalHistory :=
  ⟨h.actions.take h.cursor ++ [a], h.cursor + 1⟩

/-- Outcome of one history undo/redo step: the signalled result and the
new history / clustering / metadata states. -/
structure HistoryStep where
  res : HistoryResult
  hist : GlobalHistory
  clustering : Clustering
  metadata : ClusterMetadata

/-- Modelled from the spec: `undo()` — at cursor 0 return `NoMoreHistory`
(non-fatal, nothing changes); otherwise revert the action at cursor − 1,
decrement the cursor, and return the reversal's `Update`. -/
def GlobalHistory.undo (h : GlobalHistory) (cl : Clustering)
    (md : ClusterMetadata) : HistoryStep :=
  if h.cursor = 0 then ⟨.noMoreHistory, h, cl, md⟩
  else
    match h.actions.get? (h.cursor - 1) with
    | none => ⟨.noMoreHistory, h, cl, md⟩
    | some a =>
        let p := a.applyUndo cl md
        ⟨.up a.forwardUpdate.inverse, ⟨h.actions, h.cursor - 1⟩, p.1, p.2⟩

/-- Modelled from the spec: `redo()` — at cursor = length return
`NoMoreHistory`; otherwise re-apply the action at the cursor, increment
the cursor, and return its `Update`. -/
def GlobalHistory.redo (h : GlobalHistory) (cl : Clustering)
    (md : ClusterMetadata) : HistoryStep :=
  if h.cursor = h.actions.length then ⟨.noMoreHistory, h, cl, md⟩
  else
    match h.actions.get? h.cursor with
    | none => ⟨.noMoreHistory, h, cl, md⟩
    | some a =>
        let p := a.applyRedo cl md
        ⟨.up a.forwardUpdate, ⟨h.actions, h.cursor + 1⟩, p.1, p.2⟩

/-- An observer view registered with the session's `ViewManager`.  The
embedded `Session` code path only ever calls a view's `update()` method
(the waveform-specific refresh after a clustering change is an explicit
TODO no-op in the source), recorded here by a counter. -/
structure View where
  isWaveform : Bool
  updateCount : Nat
deriving DecidableEq, Repr

/-- `view.update()`: one notification delivered to the view. -/
def View.update (v : View) : View :=
  { v with updateCount := v.updateCount + 1 }

/-- The collaborator-supplied model (`BaseModel` layer): whether the
runtime value derives from `BaseModel`, plus the data the session pulls
from it at load time. -/
structure Model where
  isBaseModel : Bool
  spike_clusters : List Nat
  cluster_metadata : ClusterMetadata
deriving DecidableEq, Repr

/-- The `Session` state: the model, the global history, the view
manager's registered views, and the load-time collaborators. -/
structure Session where
  model : Model
  globalHistory : GlobalHistory
  viewManager : List View
  selector : Selector
  clustering : Clustering
  cluster_metadata : ClusterMetadata
deriving DecidableEq, Repr

/-- `Session._update_after_load`: rebuild the `Selector` (with
`n_spikes_max=100`) and `Clustering` from the model's spike clusters,
take the metadata from the model, and call `update()` on every
registered view.  (It does not touch the global history.) -/
def Session.updateAfterLoad (s : Session) : Session :=
  { s with
    selector := ⟨s.model.spike_clusters, 100, []⟩,
    clustering := Clustering.fromSpikeClusters s.model.spike_clusters,
    cluster_metadata := s.model.cluster_metadata,
    viewManager := s.viewManager.map View.update }

/-- `Session._update_after_select`: call `update()` on every registered
view. -/
def Session.updateAfterSelect (s : Session) : Session :=
  { s with viewManager := s.viewManager.map View.update }

/-- `Session._update_after_cluster(up, add_to_stack)`: when
`add_to_stack` holds, push the revertible action onto the global history;
then call `update()` on every registered view (the `up` argument is only
forwarded to the waveform refresh, a TODO no-op in the source). -/
def Session.updateAfterCluster (s : Session) (_up : HistoryResult)
    (stackAct : Option RevAction) : Session :=
  let s1 :=
    match stackAct with
    | some a => { s with globalHistory := s.globalHistory.action a }
    | none => s
  { s1 with viewManager := s1.viewManager.map View.update }

/-- `Session.__init__(model)`: reject a non-`BaseModel` argument with
`ValueError` before creating any state; otherwise create an empty
history and view manager and run `_update_after_load`. -/
def Session.init (model : Model) : Except SessionError Session :=
  if model.isBaseModel then
    .ok (Session.updateAfterLoad
      { model := model,
        globalHistory := GlobalHistory.empty,
        viewManager := [],
        selector := ⟨[], 0, []⟩,
        clustering := ⟨[], 0⟩,
        cluster_metadata := ⟨[]⟩ })
  else .error .valueError

/-- `Session.cluster_labels` property. -/
def Session.cluster_labels (s : Session) : List Nat :=
  s.clustering.cluster_labels

/-- `Session.cluster_colors` property: the `color` metadata value of each
current cluster label. -/
def Session.cluster_colors (s : Session) : List (Option MValue) :=
  s.cluster_labels.map (fun c => s.cluster_metadata.get c "color")

/-- `Session.select(clusters)`: set the selector's selected clusters,
then `_update_after_select`.  The pair's second component models a
raised exception (`none` = normal return, state then the first
component; on an exception the session state is the unchanged `s`). -/
def Session.select (s : Session) (clusters : List Nat) :
    Session × Option SessionError :=
  match s.selector.setSelectedClusters clusters with
  | .error e => (s, some e)
  | .ok sel => (Session.updateAfterSelect { s with selector := sel }, none)

/-- `Session.merge(clusters)`: delegate to `Clustering.merge`, then
`_update_after_cluster(up)` with the action pushed onto the history. -/
def Session.merge (s : Session) (clusters : List Nat) :
    Session × Option SessionError :=
  match s.clustering.merge clusters with
  | .error e => (s, some e)
  | .ok (up, c) =>
      (Session.updateAfterCluster { s with clustering := c } (.up up)
        (some (.clusteringAct s.clustering c up)), none)

/-- `Session.split(spikes)`: delegate to `Clustering.split`, then
`_update_after_cluster(up)` with the action pushed onto the history. -/
def Session.split (s : Session) (spikes : List Nat) :
    Session × Option SessionError :=
  match s.clustering.split spikes with
  | .error e => (s, some e)
  | .ok (up, c) =>
      (Session.updateAfterCluster { s with clustering := c } (.up up)
        (some (.clusteringAct s.clustering c up)), none)

/-- `Session.move(clusters, group)`: delegate to
`ClusterMetadata.set(clusters, 'group', group)` and push the action onto
the global history.  Note: the source notifies no view here. -/
def Session.move (s : Session) (clusters : List Nat) (grp : String) :
    Session × Option SessionError :=
  match s.cluster_metadata.set clusters "group" (.str grp) with
  | .error e => (s, some e)
  | .ok (up, md) =>
      ({ s with
          cluster_metadata := md,
          globalHistory :=
            s.globalHistory.action (.metadataAct s.cluster_metadata md up) },
       none)

/-- `Session.undo()`: delegate to the history, then
`_update_after_cluster(up, add_to_stack=False)`. -/
def Session.undo (s : Session) : Session :=
  let st := s.globalHistory.undo s.clustering s.cluster_metadata
  Session.updateAfterCluster
    { s with
        globalHistory := st.hist,
        clustering := st.clustering,
        cluster_metadata := st.metadata }
    st.res none

/-- `Session.redo()`: delegate to the history, then
`_update_after_cluster(up, add_to_stack=False)`. -/
def Session.redo (s : Session) : Session :=
  let st := s.globalHistory.redo s.clustering s.cluster_metadata
  Session.updateAfterCluster
    { s with
        globalHistory := st.hist,
        clustering := st.clustering,
        cluster_metadata := st.metadata }
    st.res none

/-!  Concrete fixtures used by witnesses and counterexamples. -/

/-- A concrete collaborator model: the spec's example partition over five
spikes, `[0,0,1,1,2]`. -/
def M0 : Model :=
  ⟨true, [0, 0, 1, 1, 2], ⟨[]⟩⟩

/-- A concrete freshly loaded session over `M0` with two registered
views (one plain, one waveform), both with zero delivered updates. -/
def S0 : Session :=
  { model := M0,
    globalHistory := GlobalHistory.empty,
    viewManager := [⟨false, 0⟩, ⟨true, 0⟩],
    selector := ⟨[0, 0, 1, 1, 2], 100, []⟩,
    clustering := ⟨[0, 0, 1, 1, 2], 3⟩,
    cluster_metadata := ⟨[]⟩ }

/-- `S0` with one recorded (metadata) action in its global history. -/
def S1 : Session :=
  { S0 with
    globalHistory :=
      ⟨[.metadataAct ⟨[]⟩ ⟨[]⟩ ⟨[], [], [], .metadataChange⟩], 1⟩ }

/-- The session produced by `Session.init M0`: as `S0` but with no view
registered yet. -/
def SInit : Session :=
  { S0 with viewManager := [] }

/-!  Helper lemmas. -/

/-- A history undo step never changes the recorded action sequence. -/
theorem GlobalHistory.undo_actions (h : GlobalHistory) (cl : Clustering)
    (md : ClusterMetadata) : (h.undo cl md).hist.actions = h.actions := by
  unfold GlobalHistory.undo
  split
  · rfl
  · split <;> rfl

/-- A history redo step never changes the recorded action sequence. -/
theorem GlobalHistory.redo_actions (h : GlobalHistory) (cl : Clustering)
    (md : ClusterMetadata) : (h.redo cl md).hist.actions = h.actions := by
  unfold GlobalHistory.redo
  split
  · rfl
  · split <;> rfl

/-- Reading an index below the length through `List.map`. -/
theorem list_map_getD {α β : Type} (f : α → β) (l : List α) (d : α)
    (i : Nat) (h : i < l.length) :
    (l.map f).getD i (f d) = f (l.getD i d) := by
  induction l generalizing i with
  | nil => simp at h
  | cons a t ih =>
      cases i with
      | zero => rfl
      | succ n => exact ih n (Nat.lt_of_succ_lt_succ h)

/-!  Claim theorems. -/

/-- Claim C1: every successful `Session.merge(clusters)` or
`Session.split(spikes)` delegates to `Clustering.merge` / `Clustering.split`,
pushes exactly the one resulting revertible action onto the global history,
and invokes `update()` on every registered observer view; nothing else in
the session changes. -/
theorem session_merge_split_delegates_and_notifies
    (s : Session) (clusters spikes : List Nat) (up : Update) (c : Clustering) :
    (s.clustering.merge clusters = .ok (up, c) →
      s.merge clusters =
        ({ s with
            clustering := c,
            globalHistory :=
              s.globalHistory.action (.clusteringAct s.clustering c up),
            viewManager := s.viewManager.map View.update }, none))
    ∧ (s.clustering.split spikes = .ok (up, c) →
      s.split spikes =
        ({ s with
            clustering := c,
            globalHistory :=
              s.globalHistory.action (.clusteringAct s.clustering c up),
            viewManager := s.viewManager.map View.update }, none)) := by
  constructor
  · intro h
    simp [Session.merge, h, Session.updateAfterCluster]
  · intro h
    simp [Session.split, h, Session.updateAfterCluster]

/-- Witness for C1: the spec's example — merging clusters 0 and 1 of the
partition `[0,0,1,1,2]` allocates id 3, and splitting spike 0 allocates a
new cluster for it; both push one action and update both views. -/
theorem session_merge_split_delegates_and_notifies_witness :
    S0.clustering.merge [0, 1] =
      .ok (⟨[3], [0, 1], [0, 1, 2, 3], .cluster⟩, ⟨[3, 3, 3, 3, 2], 4⟩)
    ∧ S0.merge [0, 1] =
      ({ S0 with
          clustering := ⟨[3, 3, 3, 3, 2], 4⟩,
          globalHistory :=
            S0.globalHistory.action
              (.clusteringAct S0.clustering ⟨[3, 3, 3, 3, 2], 4⟩
                ⟨[3], [0, 1], [0, 1, 2, 3], .cluster⟩),
          viewManager := S0.viewManager.map View.update }, none)
    ∧ S0.clustering.split [0] =
      .ok (⟨[3], [], [0], .cluster⟩, ⟨[3, 0, 1, 1, 2], 4⟩)
    ∧ S0.split [0] =
      ({ S0 with
          clustering := ⟨[3, 0, 1, 1, 2], 4⟩,
          globalHistory :=
            S0.globalHistory.action
              (.clusteringAct S0.clustering ⟨[3, 0, 1, 1, 2], 4⟩
                ⟨[3], [], [0], .cluster⟩),
          viewManager := S0.viewManager.map View.update }, none) :=
  ⟨rfl,
   (session_merge_split_delegates_and_notifies S0 [0, 1] [] _ _).1 rfl,
   rfl,
   (session_merge_split_delegates_and_notifies S0 [] [0] _ _).2 rfl⟩

/-- Counterexample to claim C2: `Session.move` succeeds (and pushes one
action onto the history) on a concrete session with two registered views,
yet neither view's `update()` is invoked — the view list is exactly the
one before the call, which differs from the notified one.  The source of
`Session.move` calls no view-update routine. -/
theorem session_move_no_notify_cex :
    (S0.move [0] "good").2 = none
    ∧ (S0.move [0] "good").1.globalHistory.actions.length = 1
    ∧ (S0.move [0] "good").1.viewManager = S0.viewManager
    ∧ S0.viewManager ≠ S0.viewManager.map View.update := by
  refine ⟨rfl, rfl, rfl, ?_⟩
  decide

/-- Claim C2 (amended): every successful `Session.move(clusters, group)`
delegates to `ClusterMetadata.set` with property name `"group"` and pushes
the resulting revertible action onto the global history, but — unlike
`merge` and `split` — notifies no registered observer view: the view list
(and everything else except the metadata and the history) is unchanged. -/
theorem session_move_amended
    (s : Session) (clusters : List Nat) (grp : String) (up : Update)
    (md : ClusterMetadata) :
    s.cluster_metadata.set clusters "group" (.str grp) = .ok (up, md) →
    s.move clusters grp =
      ({ s with
          cluster_metadata := md,
          globalHistory :=
            s.globalHistory.action (.metadataAct s.cluster_metadata md up) },
       none) := by
  intro h
  simp [Session.move, h]

/-- Witness for the amended C2 at a concrete input. -/
theorem session_move_amended_witness :
    S0.cluster_metadata.set [0] "group" (.str "good") =
      .ok (⟨[], [], [], .metadataChange⟩, ⟨[(0, "group", .str "good")]⟩)
    ∧ S0.move [0] "good" =
      ({ S0 with
          cluster_metadata := ⟨[(0, "group", .str "good")]⟩,
          globalHistory :=
            S0.globalHistory.action
              (.metadataAct S0.cluster_metadata ⟨[(0, "group", .str "good")]⟩
                ⟨[], [], [], .metadataChange⟩) },
       none) :=
  ⟨rfl, session_move_amended S0 [0] "good" _ _ rfl⟩

/-- Claim C3: `Session.select(clusters)` never touches the global history;
when the given clusters are all live (the selector accepts them), the
selector's selected cluster set becomes exactly `clusters` and `update()`
is invoked on every registered observer view. -/
theorem session_select_no_history_and_notifies
    (s : Session) (clusters : List Nat) :
    (s.select clusters).1.globalHistory = s.globalHistory
    ∧ (clusters.all (fun c => s.selector.spike_clusters.contains c) = true →
        s.select clusters =
          ({ s with
              selector := { s.selector with selected_clusters := clusters },
              viewManager := s.viewManager.map View.update }, none)) := by
  constructor
  · cases h : s.selector.setSelectedClusters clusters with
    | error e => simp [Session.select, h]
    | ok sel =>
        simp only [Session.select, h, Session.updateAfterSelect]
  · intro h
    have h2 : s.selector.setSelectedClusters clusters =
        .ok { s.selector with selected_clusters := clusters } := by
      unfold Selector.setSelectedClusters
      rw [if_pos h]
    simp [Session.select, h2, Session.updateAfterSelect]

/-- Witness for C3: selecting the live cluster 1 on a concrete session. -/
theorem session_select_no_history_and_notifies_witness :
    [1].all (fun c => S0.selector.spike_clusters.contains c) = true
    ∧ S0.select [1] =
      ({ S0 with
          selector := { S0.selector with selected_clusters := [1] },
          viewManager := S0.viewManager.map View.update }, none) :=
  ⟨by decide, (session_select_no_history_and_notifies S0 [1]).2 (by decide)⟩

/-- Claim C4: `Session.undo` and `Session.redo` never push a new action —
the history's recorded action sequence is exactly the one before the call
(only the cursor may move) — and `update()` is invoked on every
registered observer view. -/
theorem session_undo_redo_no_push (s : Session) :
    (s.undo).globalHistory.actions = s.globalHistory.actions
    ∧ (s.redo).globalHistory.actions = s.globalHistory.actions
    ∧ (s.undo).viewManager = s.viewManager.map View.update
    ∧ (s.redo).viewManager = s.viewManager.map View.update := by
  refine ⟨?_, ?_, ?_, ?_⟩ <;>
    simp [Session.undo, Session.redo, Session.updateAfterCluster,
          GlobalHistory.undo_actions, GlobalHistory.redo_actions]

/-- Claim C5: when the history has nothing to revert (cursor at 0) or
nothing to reapply (cursor at the tail), `GlobalHistory.undo` /
`GlobalHistory.redo` signal `NoMoreHistory` without touching anything,
and `Session.undo` / `Session.redo` return normally with the partition,
metadata and history unchanged — only the observer notification pass runs
(every view's `update()` is still invoked, reporting the no-op). -/
theorem session_undo_redo_no_more_history (s : Session) :
    (s.globalHistory.cursor = 0 →
      s.globalHistory.undo s.clustering s.cluster_metadata =
        ⟨.noMoreHistory, s.globalHistory, s.clustering, s.cluster_metadata⟩
      ∧ s.undo = { s with viewManager := s.viewManager.map View.update })
    ∧ (s.globalHistory.cursor = s.globalHistory.actions.length →
      s.globalHistory.redo s.clustering s.cluster_metadata =
        ⟨.noMoreHistory, s.globalHistory, s.clustering, s.cluster_metadata⟩
      ∧ s.redo = { s with viewManager := s.viewManager.map View.update }) := by
  constructor
  · intro h
    have h1 : s.globalHistory.undo s.clustering s.cluster_metadata =
        ⟨.noMoreHistory, s.globalHistory, s.clustering, s.cluster_metadata⟩ := by
      unfold GlobalHistory.undo
      simp [h]
    refine ⟨h1, ?_⟩
    unfold Session.undo
    rw [h1]
    rfl
  · intro h
    have h1 : s.globalHistory.redo s.clustering s.cluster_metadata =
        ⟨.noMoreHistory, s.globalHistory, s.clustering, s.cluster_metadata⟩ := by
      unfold GlobalHistory.redo
      simp [h]
    refine ⟨h1, ?_⟩
    unfold Session.redo
    rw [h1]
    rfl

/-- Witness for C5: on a freshly loaded session (empty history, cursor 0)
both `undo` and `redo` are no-ops apart from the notification pass. -/
theorem session_undo_redo_no_more_history_witness :
    S0.globalHistory.cursor = 0
    ∧ S0.globalHistory.cursor = S0.globalHistory.actions.length
    ∧ S0.undo = { S0 with viewManager := S0.viewManager.map View.update }
    ∧ S0.redo = { S0 with viewManager := S0.viewManager.map View.update } :=
  ⟨rfl, rfl,
   ((session_undo_redo_no_more_history S0).1 rfl).2,
   ((session_undo_redo_no_more_history S0).2 rfl).2⟩

/-- Counterexample to claim C6: on a concrete session whose history holds
one recorded action, running the load routine (`_update_after_load`)
leaves that action in place — loading does not clear previously recorded
actions, so the history is not empty afterwards. -/
theorem session_load_keeps_history_cex :
    S1.globalHistory.actions.length = 1
    ∧ (S1.updateAfterLoad).globalHistory.actions.length = 1
    ∧ (S1.updateAfterLoad).globalHistory.actions ≠ [] := by
  refine ⟨rfl, rfl, ?_⟩
  decide

/-- Claim C6 (amended): after `Session.__init__` the global history is
empty (it is freshly created there), and `_update_after_load` invokes
`update()` on every registered view — but `_update_after_load` itself
leaves the global history exactly as it was, clearing nothing. -/
theorem session_load_amended :
    (∀ m s, Session.init m = .ok s → s.globalHistory = GlobalHistory.empty)
    ∧ (∀ s : Session,
        (s.updateAfterLoad).globalHistory = s.globalHistory
        ∧ (s.updateAfterLoad).viewManager = s.viewManager.map View.update) := by
  constructor
  · intro m s h
    unfold Session.init at h
    split at h
    · injection h with h
      subst h
      rfl
    · cases h
  · intro s
    exact ⟨rfl, rfl⟩

/-- Witness for the amended C6: a concrete construction yields an empty
history. -/
theorem session_load_amended_witness :
    Session.init M0 = .ok SInit ∧ SInit.globalHistory = GlobalHistory.empty :=
  ⟨rfl, session_load_amended.1 M0 SInit rfl⟩

/-- Claim C7: when the delegated operation of a mutating session action
(`merge`, `split`, `move`) fails its validation, the raised error
propagates and the session is returned entirely unchanged — no history
push, no view notification, no partition or metadata write. -/
theorem session_mutating_ops_transactional
    (s : Session) (clusters spikes cls : List Nat) (grp : String)
    (e : SessionError) :
    (s.clustering.merge clusters = .error e → s.merge clusters = (s, some e))
    ∧ (s.clustering.split spikes = .error e → s.split spikes = (s, some e))
    ∧ (s.cluster_metadata.set cls "group" (.str grp) = .error e →
        s.move cls grp = (s, some e)) := by
  refine ⟨fun h => ?_, fun h => ?_, fun h => ?_⟩
  · simp [Session.merge, h]
  · simp [Session.split, h]
  · simp [Session.move, h]

/-- Witness for C7: a one-element merge and an out-of-range split both
fail validation and leave the concrete session untouched. -/
theorem session_mutating_ops_transactional_witness :
    S0.clustering.merge [0] = .error .invalidOperation
    ∧ S0.merge [0] = (S0, some .invalidOperation)
    ∧ S0.clustering.split [9] = .error .outOfRange
    ∧ S0.split [9] = (S0, some .outOfRange) :=
  ⟨rfl,
   (session_mutating_ops_transactional S0 [0] [] [] "x" .invalidOperation).1 rfl,
   rfl,
   (session_mutating_ops_transactional S0 [] [9] [] "x" .outOfRange).2.1 rfl⟩

/-- Claim C8: `Session.cluster_colors` is parallel to
`Session.cluster_labels` — same length, the i-th color is the `color`
metadata value of the i-th label — and the `color` lookup always yields a
value (falling back to the declared palette default when unset). -/
theorem session_cluster_colors_parallel (s : Session) :
    s.cluster_colors.length = s.cluster_labels.length
    ∧ (∀ i, i < s.cluster_labels.length →
        s.cluster_colors.getD i (s.cluster_metadata.get 0 "color") =
          s.cluster_metadata.get (s.cluster_labels.getD i 0) "color")
    ∧ (∀ c, (s.cluster_metadata.get c "color").isSome = true) := by
  refine ⟨by simp [Session.cluster_colors], fun i h => ?_, fun c => ?_⟩
  · exact list_map_getD (fun c => s.cluster_metadata.get c "color")
      s.cluster_labels 0 i h
  · unfold ClusterMetadata.get
    split
    · rfl
    · unfold defaultValue
      rw [if_neg (by decide), if_pos rfl]
      rfl

/-- Witness for C8 at a concrete session and index. -/
theorem session_cluster_colors_parallel_witness :
    0 < S0.cluster_labels.length
    ∧ S0.cluster_colors.getD 0 (S0.cluster_metadata.get 0 "color") =
        S0.cluster_metadata.get (S0.cluster_labels.getD 0 0) "color" :=
  ⟨by decide, (session_cluster_colors_parallel S0).2.1 0 (by decide)⟩

/-- Claim C9: the load routine constructs the `Selector` over the model's
initial spike→cluster vector with the `max_spikes` cap set to exactly
100, and so does `Session.__init__` on success. -/
theorem session_selector_cap_100 :
    (∀ s : Session,
      (s.updateAfterLoad).selector = ⟨s.model.spike_clusters, 100, []⟩)
    ∧ (∀ m s, Session.init m = .ok s →
        s.selector = ⟨m.spike_clusters, 100, []⟩) := by
  constructor
  · intro s
    rfl
  · intro m s h
    unfold Session.init at h
    split at h
    · injection h with h
      subst h
      rfl
    · cases h

/-- Witness for C9: the concretely constructed session has the cap 100. -/
theorem session_selector_cap_100_witness :
    Session.init M0 = .ok SInit
    ∧ SInit.selector = ⟨M0.spike_clusters, 100, []⟩ :=
  ⟨rfl, session_selector_cap_100.2 M0 SInit rfl⟩

/-- Claim C10: `Session.__init__` rejects a model that is not a
`BaseModel` with `ValueError`, producing no session state at all; for a
`BaseModel` it always produces a fully initialized session — empty
history, empty view registry, selector, clustering and metadata all built
from the model. -/
theorem session_init_validates (m : Model) :
    (m.isBaseModel = false → Session.init m = .error .valueError)
    ∧ (m.isBaseModel = true →
        Session.init m = .ok
          { model := m,
            globalHistory := GlobalHistory.empty,
            viewManager := [],
            selector := ⟨m.spike_clusters, 100, []⟩,
            clustering := Clustering.fromSpikeClusters m.spike_clusters,
            cluster_metadata := m.cluster_metadata }) := by
  constructor
  · intro h
    simp [Session.init, h]
  · intro h
    simp [Session.init, h, Session.updateAfterLoad, GlobalHistory.empty]

/-- Witness for C10: one rejected and one accepted concrete construction. -/
theorem session_init_validates_witness :
    Session.init ⟨false, [], ⟨[]⟩⟩ = .error .valueError
    ∧ Session.init M0 = .ok
        { model := M0,
          globalHistory := GlobalHistory.empty,
          viewManager := [],
          selector := ⟨M0.spike_clusters, 100, []⟩,
          clustering := Clustering.fromSpikeClusters M0.spike_clusters,
          cluster_metadata := M0.cluster_metadata } :=
  ⟨(session_init_validates ⟨false, [], ⟨[]⟩⟩).1 rfl,
   (session_init_validates M0).2 rfl⟩

end Phy
